import Mathlib

/-!
Verification of the metrics-translator core of opentelemetry-mapping-go.

The development shallowly embeds the Go sources:
* `pkg/otlp/metrics/config.go` — translator configuration and its functional
  options (embedded directly from the source);
* the delta cache, attribute tagger and `MapMetrics` orchestrator, whose
  implementations are not part of the given sources (only their tests are):
  these are modelled from the specification, each such definition carrying a
  doc comment starting with `Modelled from the spec:`.

Go machine integers (`int64`) are embedded as `Int`; Go's integer division on
positive operands agrees with Lean's `Int` division used here.  Go `float64`
metric values are embedded as `Rat`: the delta-cache algorithm only compares
and subtracts values, and the claims under study concern that control flow,
not rounding.  Go's `error` results are embedded as `Except String`.
-/

namespace OtelMapping

/-- Source: `translatorConfig` of `pkg/otlp/metrics/config.go`.  The Go
`HistogramMode` and `NumberMode` types are string types, embedded as `String`;
the `fallbackSourceProvider` interface value is embedded as an abstract
`Option Unit` (absent or present). -/
structure translatorConfig where
  HistMode : String
  SendHistogramAggregations : Bool
  Quantiles : Bool
  SendMonotonic : Bool
  ResourceAttributesAsTags : Bool
  InstrumentationLibraryMetadataAsTags : Bool
  InstrumentationScopeMetadataAsTags : Bool
  sweepInterval : Int
  deltaTTL : Int
  fallbackSourceProvider : Option Unit
deriving Repr, DecidableEq

/-- Source: `TranslatorOption` of `config.go`, `func(*translatorConfig) error`;
the Go in-place mutation is embedded as returning the updated configuration,
and a non-nil error as `Except.error`. -/
def TranslatorOption : Type := translatorConfig → Except String translatorConfig

/-- Source: constant `HistogramModeNoBuckets` of `config.go`. -/
def HistogramModeNoBuckets : String := "nobuckets"

/-- Source: constant `HistogramModeCounters` of `config.go`. -/
def HistogramModeCounters : String := "counters"

/-- Source: constant `HistogramModeDistributions` of `config.go`. -/
def HistogramModeDistributions : String := "distributions"

/-- Source: constant `NumberModeCumulativeToDelta` of `config.go`. -/
def NumberModeCumulativeToDelta : String := "cumulative_to_delta"

/-- Source: constant `NumberModeRawValue` of `config.go`. -/
def NumberModeRawValue : String := "raw_value"

/-- Source: `WithDeltaTTL` of `config.go`: rejects a non-positive TTL, stores
the TTL, and derives the sweep interval (`1`, overridden with `deltaTTL / 2`
when `deltaTTL > 1`). -/
def WithDeltaTTL (deltaTTL : Int) : TranslatorOption := fun t =>
  if deltaTTL ≤ 0 then
    Except.error ("time to live must be positive: " ++ toString deltaTTL)
  else
    Except.ok { t with
      deltaTTL := deltaTTL
      sweepInterval := if deltaTTL > 1 then deltaTTL / 2 else 1 }

/-- Source: `WithFallbackSourceProvider` of `config.go`. -/
def WithFallbackSourceProvider (provider : Option Unit) : TranslatorOption := fun t =>
  Except.ok { t with fallbackSourceProvider := provider }

/-- Source: `WithQuantiles` of `config.go`. -/
def WithQuantiles : TranslatorOption := fun t =>
  Except.ok { t with Quantiles := true }

/-- Source: `WithResourceAttributesAsTags` of `config.go`. -/
def WithResourceAttributesAsTags : TranslatorOption := fun t =>
  Except.ok { t with ResourceAttributesAsTags := true }

/-- Source: `WithInstrumentationLibraryMetadataAsTags` of `config.go`. -/
def WithInstrumentationLibraryMetadataAsTags : TranslatorOption := fun t =>
  Except.ok { t with InstrumentationLibraryMetadataAsTags := true }

/-- Source: `WithInstrumentationScopeMetadataAsTags` of `config.go`. -/
def WithInstrumentationScopeMetadataAsTags : TranslatorOption := fun t =>
  Except.ok { t with InstrumentationScopeMetadataAsTags := true }

/-- Source: `WithHistogramMode` of `config.go`: a `switch` admitting the three
histogram mode strings and erring on anything else. -/
def WithHistogramMode (mode : String) : TranslatorOption := fun t =>
  if mode = HistogramModeNoBuckets ∨ mode = HistogramModeCounters ∨
      mode = HistogramModeDistributions then
    Except.ok { t with HistMode := mode }
  else
    Except.error ("unknown histogram mode: " ++ mode)

/-- Source: `WithHistogramAggregations` of `config.go`. -/
def WithHistogramAggregations : TranslatorOption := fun t =>
  Except.ok { t with SendHistogramAggregations := true }

/-- Source: `WithCountSumMetrics` of `config.go`, which simply returns
`WithHistogramAggregations()`. -/
def WithCountSumMetrics : TranslatorOption :=
  WithHistogramAggregations

/-- Source: `WithNumberMode` of `config.go`: a `switch` mapping the two number
mode strings into the `SendMonotonic` flag and erring on anything else. -/
def WithNumberMode (mode : String) : TranslatorOption := fun t =>
  if mode = NumberModeCumulativeToDelta then
    Except.ok { t with SendMonotonic := true }
  else if mode = NumberModeRawValue then
    Except.ok { t with SendMonotonic := false }
  else
    Except.error ("unknown number mode: " ++ mode)

/-- Modelled from the spec: the default configuration `NewTranslator` starts
from (`NewTranslator` itself is not among the given sources).  `config.go`
documents a default delta TTL of 3600 seconds and
`NumberModeCumulativeToDelta` as the default number mode; the sweep interval
default follows the documented invariant `sweepInterval = max(1, deltaTTL/2)`. -/
def defaultCfg : translatorConfig where
  HistMode := HistogramModeDistributions
  SendHistogramAggregations := false
  Quantiles := false
  SendMonotonic := true
  ResourceAttributesAsTags := false
  InstrumentationLibraryMetadataAsTags := false
  InstrumentationScopeMetadataAsTags := false
  sweepInterval := 1800
  deltaTTL := 3600
  fallbackSourceProvider := none

/-- The closed syntax of translator creation options exported by `config.go`:
`NewTranslator` callers can only pass these. -/
inductive OptionSpec where
  | deltaTTL (t : Int)
  | fallbackSourceProvider (p : Option Unit)
  | quantiles
  | resourceAttributesAsTags
  | instrumentationLibraryMetadataAsTags
  | instrumentationScopeMetadataAsTags
  | histogramMode (m : String)
  | countSumMetrics
  | histogramAggregations
  | numberMode (m : String)

/-- Interpretation of `OptionSpec` by the option functions of `config.go`. -/
def OptionSpec.toOption : OptionSpec → TranslatorOption
  | .deltaTTL t => WithDeltaTTL t
  | .fallbackSourceProvider p => WithFallbackSourceProvider p
  | .quantiles => WithQuantiles
  | .resourceAttributesAsTags => WithResourceAttributesAsTags
  | .instrumentationLibraryMetadataAsTags => WithInstrumentationLibraryMetadataAsTags
  | .instrumentationScopeMetadataAsTags => WithInstrumentationScopeMetadataAsTags
  | .histogramMode m => WithHistogramMode m
  | .countSumMetrics => WithCountSumMetrics
  | .histogramAggregations => WithHistogramAggregations
  | .numberMode m => WithNumberMode m

/-- Sequential application of options to a configuration, stopping at the
first error. -/
def applyOptions (opts : List OptionSpec) (c : translatorConfig) :
    Except String translatorConfig :=
  match opts with
  | [] => Except.ok c
  | o :: rest =>
    match o.toOption c with
    | Except.ok c2 => applyOptions rest c2
    | Except.error e => Except.error e

/-- Modelled from the spec: `NewTranslator(logger, options...)` (not among the
given sources) "applies each option in order and fails construction if any
option reports an invalid value"; construction is all-or-nothing.  Only the
configuration-building part is modelled; the logger plays no role in the
claims. -/
def NewTranslator (opts : List OptionSpec) : Except String translatorConfig :=
  applyOptions opts defaultCfg

/-- Association-list lookup keyed by strings: first entry with the given key. -/
def alistLookup {α : Type} (k : String) : List (String × α) → Option α
  | [] => none
  | (k2, v) :: rest => if k2 = k then some v else alistLookup k rest

/-- Association-list insert-or-replace keyed by strings. -/
def alistInsert {α : Type} (k : String) (v : α) : List (String × α) → List (String × α)
  | [] => [(k, v)]
  | (k2, v2) :: rest =>
    if k2 = k then (k, v) :: rest else (k2, v2) :: alistInsert k v rest

/-- Modelled from the spec: `DeltaState` of the delta cache (the cache
implementation is not among the given sources): last observed cumulative
value, its timestamp, and the last access instant used by the TTL sweep.
The Go `float64` value is embedded as `Rat`, instants as `Nat`. -/
structure DeltaState where
  lastValue : Rat
  lastTimestamp : Nat
  lastAccess : Nat
deriving Repr, DecidableEq

/-- Modelled from the spec: the delta cache's mapping from a series identity
(a string cache key) to its `DeltaState`, embedded as an association list. -/
structure DeltaCache where
  entries : List (String × DeltaState)
deriving Repr, DecidableEq

/-- Modelled from the spec: `Compute(identity, timestamp, value) → (delta, ok)`
of the delta cache (not among the given sources).  Absent identity: create the
entry, no delta.  Stale or out-of-order timestamp: no delta, state untouched.
Value below the stored one: counter-reset heuristic, the new value itself is
the delta.  Otherwise the delta is the difference; state is updated to the new
value and timestamp on every produced delta, and `lastAccess` is set to `now`
on creation and update.  The current instant `now` is passed explicitly. -/
def DeltaCache.Compute (c : DeltaCache) (now : Nat) (key : String) (ts : Nat)
    (v : Rat) : (Rat × Bool) × DeltaCache :=
  match alistLookup key c.entries with
  | none => ((0, false), ⟨alistInsert key ⟨v, ts, now⟩ c.entries⟩)
  | some st =>
    if ts ≤ st.lastTimestamp then
      ((0, false), c)
    else if v < st.lastValue then
      ((v, true), ⟨alistInsert key ⟨v, ts, now⟩ c.entries⟩)
    else
      ((v - st.lastValue, true), ⟨alistInsert key ⟨v, ts, now⟩ c.entries⟩)

/-- Modelled from the spec: the fixed allow-list of container, cloud,
Kubernetes and ECS attribute keys of `ContainerTagFromAttributes` (the
implementation is not among the given sources), mapping each OpenTelemetry
semantic-convention key to its backend tag key; the pairs are the ones
exercised by `TestContainerTagFromAttributes`. -/
def containerTagsAttributes : List (String × String) :=
  [("container.name", "container_name"),
   ("container.image.tag", "image_tag"),
   ("container.runtime", "runtime"),
   ("k8s.container.name", "kube_container_name"),
   ("k8s.replicaset.name", "kube_replica_set"),
   ("k8s.daemonset.name", "kube_daemon_set"),
   ("k8s.pod.name", "pod_name"),
   ("cloud.provider", "cloud_provider"),
   ("cloud.region", "region"),
   ("cloud.availability_zone", "zone"),
   ("aws.ecs.task.family", "task_family"),
   ("aws.ecs.cluster.arn", "ecs_cluster_name"),
   ("aws.ecs.container.arn", "ecs_container_name")]

/-- Modelled from the spec: `ContainerTagFromAttributes(stringMap)` (not among
the given sources) is restricted to the allow-list above; a key outside it —
in particular the empty-string key — contributes nothing, while the value of
an allow-listed key is carried over unchanged, an empty-string value
included.  The Go string map is embedded as an association list. -/
def ContainerTagFromAttributes (attrs : List (String × String)) :
    List (String × String) :=
  attrs.filterMap fun kv =>
    (alistLookup kv.1 containerTagsAttributes).map fun dk => (dk, kv.2)

/-- Modelled from the spec: the fixed remapping table of `TagsFromAttributes`
(not among the given sources).  Keys with a dedicated backend tag key are
renamed, a list of well-known keys passes through unchanged, a key under the
reserved `tags.datadoghq.com/` namespace is kept with the namespace stripped,
and every other key is dropped. -/
def remapKey (k : String) : Option String :=
  match alistLookup k containerTagsAttributes with
  | some dk => some dk
  | none =>
    if k = "process.executable.name" ∨ k = "os.type" then some k
    else if "tags.datadoghq.com/".isPrefixOf k then
      some (k.drop "tags.datadoghq.com/".length)
    else none

/-- Modelled from the spec: `TagsFromAttributes(attrs)` (not among the given
sources) renders each attribute surviving the remapping table as a
`"key:value"` tag.  The Go string-slice result is embedded as
`Option (List String)` with `none` standing for a nil slice; the function
always allocates its result slice, hence always returns `some`. -/
def TagsFromAttributes (attrs : List (String × String)) : Option (List String) :=
  some (attrs.filterMap fun kv =>
    (remapKey kv.1).map fun k => k ++ ":" ++ kv.2)

/-- Modelled from the spec: `OriginIDFromAttributes(attrs)` (not among the
given sources): a container ID attribute wins, then a pod UID attribute, then
the empty string. -/
def OriginIDFromAttributes (attrs : List (String × String)) : String :=
  match alistLookup "container.id" attrs with
  | some cid => "container_id://" ++ cid
  | none =>
    match alistLookup "k8s.pod.uid" attrs with
    | some uid => "kubernetes_pod_uid://" ++ uid
    | none => ""

/-- Modelled from the spec: the metric types the translator dispatches on
(§4.1); `unknownType` stands for any unrecognized type. -/
inductive MetricType where
  | gauge
  | sum
  | histogram
  | expHistogram
  | summary
  | unknownType
deriving Repr, DecidableEq

/-- Modelled from the spec: aggregation temporality of a sum;
`unspecified` stands for any other/unsupported temporality. -/
inductive Temporality where
  | cumulative
  | delta
  | unspecified
deriving Repr, DecidableEq

/-- Modelled from the spec: one metric with a single data point (attributes,
timestamp, value); `temporality` is meaningful for sums only, `buckets` for
histograms only (per-bucket observation counts), `quantiles` for summaries
only (quantile labels). -/
structure Metric where
  name : String
  type : MetricType
  temporality : Temporality
  attrs : List (String × String)
  ts : Nat
  value : Rat
  buckets : List Nat
  quantiles : List String
deriving Repr, DecidableEq

/-- Modelled from the spec: a batch of resource-scoped metrics — resource
attributes, one instrumentation scope (name and version), and its metrics. -/
structure Batch where
  resourceAttrs : List (String × String)
  scopeName : String
  scopeVersion : String
  metrics : List Metric
deriving Repr, DecidableEq

/-- Modelled from the spec: a `TranslatedPoint` (§3) at the granularity the
orchestration claims need: series name, metric kind, value and tags. -/
structure TranslatedPoint where
  name : String
  kind : String
  value : Rat
  tags : List String
deriving Repr, DecidableEq

/-- Modelled from the spec: the two per-batch diagnostic counters observed by
the tests — "unknown or unsupported metric type" and "unknown or unsupported
aggregation temporality" occurrences. -/
structure Diag where
  unknownMetricType : Nat
  unsupportedAggregationTemporality : Nat
deriving Repr, DecidableEq

/-- Modelled from the spec: tag enrichment (§4.1): data-point attribute tags,
then resource-attribute tags when `ResourceAttributesAsTags`, then
instrumentation library / scope metadata tags when the respective flag is
set. -/
def enrichedTags (cfg : translatorConfig) (b : Batch) (m : Metric) : List String :=
  (TagsFromAttributes m.attrs).getD []
    ++ (if cfg.ResourceAttributesAsTags then
          b.resourceAttrs.map fun kv => kv.1 ++ ":" ++ kv.2
        else [])
    ++ (if cfg.InstrumentationLibraryMetadataAsTags then
          ["instrumentation_library:" ++ b.scopeName,
           "instrumentation_library_version:" ++ b.scopeVersion]
        else [])
    ++ (if cfg.InstrumentationScopeMetadataAsTags then
          ["instrumentation_scope:" ++ b.scopeName,
           "instrumentation_scope_version:" ++ b.scopeVersion]
        else [])

/-- Modelled from the spec: the series-identity cache key — metric name plus
the data-point attribute tags. -/
def seriesKey (m : Metric) : String :=
  m.name ++ "|" ++ String.intercalate "," ((TagsFromAttributes m.attrs).getD [])

/-- Modelled from the spec: histogram translation (§4.3) by configured mode:
`nobuckets` emits the `.count`/`.sum` aggregates (plus `.min`/`.max` when
aggregations are on) and no bucket series; `counters` emits the aggregates
when on plus one count series per bucket; `distributions` emits a single
distribution series.  Numeric layout of the aggregate values is abstracted to
the data-point value. -/
def translateHistogram (cfg : translatorConfig) (tags : List String)
    (m : Metric) : List TranslatedPoint :=
  if cfg.HistMode = HistogramModeNoBuckets then
    [⟨m.name ++ ".count", "count", m.value, tags⟩,
     ⟨m.name ++ ".sum", "count", m.value, tags⟩]
      ++ (if cfg.SendHistogramAggregations then
            [⟨m.name ++ ".min", "gauge", m.value, tags⟩,
             ⟨m.name ++ ".max", "gauge", m.value, tags⟩]
          else [])
  else if cfg.HistMode = HistogramModeCounters then
    (if cfg.SendHistogramAggregations then
       [⟨m.name ++ ".count", "count", m.value, tags⟩,
        ⟨m.name ++ ".sum", "count", m.value, tags⟩,
        ⟨m.name ++ ".min", "gauge", m.value, tags⟩,
        ⟨m.name ++ ".max", "gauge", m.value, tags⟩]
     else [])
      ++ m.buckets.map fun bkt => ⟨m.name ++ ".bucket", "count", (bkt : Rat), tags⟩
  else if cfg.HistMode = HistogramModeDistributions then
    [⟨m.name, "distribution", m.value, tags⟩]
  else []

/-- Modelled from the spec: summary translation (§4.3): `.count`/`.sum`
always; one series per quantile only when `Quantiles` is enabled. -/
def translateSummary (cfg : translatorConfig) (tags : List String)
    (m : Metric) : List TranslatedPoint :=
  [⟨m.name ++ ".count", "count", m.value, tags⟩,
   ⟨m.name ++ ".sum", "count", m.value, tags⟩]
    ++ (if cfg.Quantiles then
          m.quantiles.map fun q =>
            ⟨m.name ++ ".quantile", "gauge", m.value, ("quantile:" ++ q) :: tags⟩
        else [])

/-- Modelled from the spec: per-data-point dispatch of `MapMetrics` (§4.1).
Gauges pass through; cumulative sums go through the delta cache when
`SendMonotonic` (emitting a count only when a delta is produced) and are
emitted raw as gauges otherwise; delta sums are emitted as counts; a sum of
any other temporality is skipped with an "unsupported aggregation
temporality" diagnostic; histograms and exponential histograms go to the
histogram translation; summaries to the summary translation; an unrecognized
type is skipped with an "unknown metric type" diagnostic. -/
def stepMetric (cfg : translatorConfig) (b : Batch) (now : Nat)
    (acc : List TranslatedPoint × Diag × DeltaCache) (m : Metric) :
    List TranslatedPoint × Diag × DeltaCache :=
  let tags := enrichedTags cfg b m
  match m.type with
  | .gauge => (acc.1 ++ [⟨m.name, "gauge", m.value, tags⟩], acc.2.1, acc.2.2)
  | .sum =>
    match m.temporality with
    | .cumulative =>
      if cfg.SendMonotonic then
        let r := acc.2.2.Compute now (seriesKey m) m.ts m.value
        if r.1.2 then
          (acc.1 ++ [⟨m.name, "count", r.1.1, tags⟩], acc.2.1, r.2)
        else
          (acc.1, acc.2.1, r.2)
      else
        (acc.1 ++ [⟨m.name, "gauge", m.value, tags⟩], acc.2.1, acc.2.2)
    | .delta => (acc.1 ++ [⟨m.name, "count", m.value, tags⟩], acc.2.1, acc.2.2)
    | .unspecified =>
      (acc.1,
       { acc.2.1 with unsupportedAggregationTemporality :=
          acc.2.1.unsupportedAggregationTemporality + 1 },
       acc.2.2)
  | .histogram => (acc.1 ++ translateHistogram cfg tags m, acc.2.1, acc.2.2)
  | .expHistogram => (acc.1 ++ translateHistogram cfg tags m, acc.2.1, acc.2.2)
  | .summary => (acc.1 ++ translateSummary cfg tags m, acc.2.1, acc.2.2)
  | .unknownType =>
    (acc.1,
     { acc.2.1 with unknownMetricType := acc.2.1.unknownMetricType + 1 },
     acc.2.2)

/-- Modelled from the spec: `MapMetrics(config, batch)` (not among the given
sources) fans out over the batch's data points, threading the emitted points,
the diagnostic counters and the delta cache; the batch is always fully
attempted. -/
def MapMetrics (cfg : translatorConfig) (cache : DeltaCache) (now : Nat)
    (b : Batch) : List TranslatedPoint × Diag × DeltaCache :=
  b.metrics.foldl (stepMetric cfg b now) ([], ⟨0, 0⟩, cache)

/-- The diagnostic effect of one metric: a function of its type and
temporality only. -/
def diagStep (d : Diag) (m : Metric) : Diag :=
  match m.type with
  | .unknownType => { d with unknownMetricType := d.unknownMetricType + 1 }
  | .sum =>
    match m.temporality with
    | .unspecified =>
      { d with unsupportedAggregationTemporality :=
          d.unsupportedAggregationTemporality + 1 }
    | _ => d
  | _ => d

/-- The fixed mixed batch of the end-to-end scenario: a gauge, a delta sum,
two sums of unsupported temporality, one metric of unrecognized type, one
cumulative sum, a histogram and a summary. -/
def mixedBatch : Batch where
  resourceAttrs := [("host.name", "test-host"), ("container.runtime", "cro")]
  scopeName := "otelcol/test"
  scopeVersion := "latest"
  metrics :=
    [⟨"mixed.gauge", .gauge, .unspecified, [("state", "idle")], 10, 3, [], []⟩,
     ⟨"mixed.sum.delta", .sum, .delta, [], 10, 4, [], []⟩,
     ⟨"mixed.sum.bad1", .sum, .unspecified, [], 10, 5, [], []⟩,
     ⟨"mixed.sum.cumulative", .sum, .cumulative, [], 10, 6, [], []⟩,
     ⟨"mixed.unknown", .unknownType, .unspecified, [], 10, 0, [], []⟩,
     ⟨"mixed.sum.bad2", .sum, .unspecified, [], 10, 7, [], []⟩,
     ⟨"mixed.histogram", .histogram, .delta, [], 10, 8, [2, 3], []⟩,
     ⟨"mixed.summary", .summary, .unspecified, [], 10, 9, [], ["0.5", "0.99"]⟩]

/-- Looking up a key right after inserting it yields the inserted value. -/
theorem alistLookup_alistInsert {α : Type} (k : String) (v : α)
    (l : List (String × α)) : alistLookup k (alistInsert k v l) = some v := by
  induction l with
  | nil => simp [alistInsert, alistLookup]
  | cons hd tl ih =>
    obtain ⟨k2, v2⟩ := hd
    by_cases hk : k2 = k
    · simp [alistInsert, hk, alistLookup]
    · simp [alistInsert, hk, alistLookup, ih]

/-- Every option function either fails or leaves `deltaTTL` positive when it
was positive before. -/
theorem OptionSpec.toOption_deltaTTL_pos (o : OptionSpec) (c c2 : translatorConfig)
    (hpos : 0 < c.deltaTTL) (h : o.toOption c = Except.ok c2) : 0 < c2.deltaTTL := by
  cases o <;>
    simp only [toOption, WithDeltaTTL, WithFallbackSourceProvider, WithQuantiles,
      WithResourceAttributesAsTags, WithInstrumentationLibraryMetadataAsTags,
      WithInstrumentationScopeMetadataAsTags, WithHistogramMode, WithCountSumMetrics,
      WithHistogramAggregations, WithNumberMode] at h
  case deltaTTL t =>
    split at h
    · exact absurd h (by simp)
    · cases h
      exact (by omega : (0 : Int) < t)
  case fallbackSourceProvider p => cases h; exact hpos
  case quantiles => cases h; exact hpos
  case resourceAttributesAsTags => cases h; exact hpos
  case instrumentationLibraryMetadataAsTags => cases h; exact hpos
  case instrumentationScopeMetadataAsTags => cases h; exact hpos
  case histogramMode m =>
    split at h
    · cases h; exact hpos
    · exact absurd h (by simp)
  case countSumMetrics => cases h; exact hpos
  case histogramAggregations => cases h; exact hpos
  case numberMode m =>
    split at h
    · cases h; exact hpos
    · split at h
      · cases h; exact hpos
      · exact absurd h (by simp)

/-- `applyOptions` preserves positivity of `deltaTTL`. -/
theorem applyOptions_deltaTTL_pos (opts : List OptionSpec) (c c2 : translatorConfig)
    (hpos : 0 < c.deltaTTL) (h : applyOptions opts c = Except.ok c2) : 0 < c2.deltaTTL := by
  induction opts generalizing c with
  | nil =>
    simp only [applyOptions] at h
    cases h
    exact hpos
  | cons o rest ih =>
    simp only [applyOptions] at h
    cases ho : o.toOption c with
    | ok cmid =>
      rw [ho] at h
      exact ih cmid (OptionSpec.toOption_deltaTTL_pos o c cmid hpos ho) h
    | error e =>
      rw [ho] at h
      exact absurd h (by simp)

/-- An option that errs on every configuration makes `applyOptions` err on
every list containing it. -/
theorem applyOptions_fail_of_mem (pre post : List OptionSpec) (o : OptionSpec)
    (c : translatorConfig) (hbad : ∀ c2, ∃ e, o.toOption c2 = Except.error e) :
    ∃ e, applyOptions (pre ++ o :: post) c = Except.error e := by
  induction pre generalizing c with
  | nil =>
    obtain ⟨e, he⟩ := hbad c
    exact ⟨e, by simp [applyOptions, he]⟩
  | cons p rest ih =>
    simp only [List.cons_append, applyOptions]
    cases hp : p.toOption c with
    | ok cmid => exact ih cmid
    | error e => exact ⟨e, rfl⟩

/-- One dispatch step changes the diagnostic counters exactly by `diagStep`,
whatever the configuration, batch context, instant and accumulated state. -/
theorem stepMetric_diag (cfg : translatorConfig) (b : Batch) (now : Nat)
    (acc : List TranslatedPoint × Diag × DeltaCache) (m : Metric) :
    (stepMetric cfg b now acc m).2.1 = diagStep acc.2.1 m := by
  cases htype : m.type <;> simp only [stepMetric, diagStep, htype]
  cases htemp : m.temporality <;> simp only
  split
  · split <;> rfl
  · rfl

/-- The diagnostic counters of `MapMetrics` are the fold of `diagStep` over
the batch's metrics: independent of the configuration, the cache and the
instant. -/
theorem mapMetrics_diag_eq_fold (cfg : translatorConfig) (cache : DeltaCache)
    (now : Nat) (b : Batch) :
    (MapMetrics cfg cache now b).2.1 = b.metrics.foldl diagStep ⟨0, 0⟩ := by
  have key : ∀ (ms : List Metric) (acc : List TranslatedPoint × Diag × DeltaCache),
      (ms.foldl (stepMetric cfg b now) acc).2.1 = ms.foldl diagStep acc.2.1 := by
    intro ms
    induction ms with
    | nil => intro acc; rfl
    | cons m rest ih =>
      intro acc
      simp only [List.foldl_cons]
      rw [ih, stepMetric_diag]
  exact key b.metrics ([], ⟨0, 0⟩, cache)

/-- C3: `WithDeltaTTL` with a positive TTL `T` succeeds, stores a sweep
interval equal to `max 1 (T / 2)` and a positive `deltaTTL`; moreover every
successfully constructed configuration has a strictly positive `deltaTTL`. -/
theorem withDeltaTTL_sweepInterval_and_pos :
    (∀ (c : translatorConfig) (T : Int), 0 < T →
      ∃ c2, WithDeltaTTL T c = Except.ok c2 ∧
        c2.sweepInterval = max 1 (T / 2) ∧ 0 < c2.deltaTTL) ∧
    (∀ (opts : List OptionSpec) (c : translatorConfig),
      NewTranslator opts = Except.ok c → 0 < c.deltaTTL) := by
  constructor
  · intro c T hT
    refine ⟨{ c with deltaTTL := T, sweepInterval := if T > 1 then T / 2 else 1 }, ?_, ?_, ?_⟩
    · simp only [WithDeltaTTL, if_neg (by omega : ¬ T ≤ 0)]
    · simp only
      split <;> omega
    · simpa using hT
  · intro opts c h
    exact applyOptions_deltaTTL_pos opts defaultCfg c (by norm_num [defaultCfg]) h

/-- Witness for C3: instantiation at `T = 5` and at the option list
`[deltaTTL 5]`. -/
theorem withDeltaTTL_sweepInterval_and_pos_witness :
    (∃ c2, WithDeltaTTL 5 defaultCfg = Except.ok c2 ∧
      c2.sweepInterval = max 1 ((5 : Int) / 2) ∧ 0 < c2.deltaTTL) ∧
    0 < ({ defaultCfg with deltaTTL := 5, sweepInterval := 2 } : translatorConfig).deltaTTL := by
  constructor
  · exact withDeltaTTL_sweepInterval_and_pos.1 defaultCfg 5 (by decide)
  · exact withDeltaTTL_sweepInterval_and_pos.2 [OptionSpec.deltaTTL 5]
      { defaultCfg with deltaTTL := 5, sweepInterval := 2 } (by rfl)

/-- C4: `WithDeltaTTL` with a non-positive TTL errs, `WithHistogramMode` with
a string other than the three histogram modes errs, `WithNumberMode` with a
string other than the two number modes errs, and `NewTranslator` fails on any
option list containing such an option, wherever it stands in the list. -/
theorem invalid_options_fail_construction :
    (∀ (c : translatorConfig) (T : Int), T ≤ 0 →
      ∃ e, WithDeltaTTL T c = Except.error e) ∧
    (∀ (c : translatorConfig) (m : String), m ≠ HistogramModeNoBuckets →
      m ≠ HistogramModeCounters → m ≠ HistogramModeDistributions →
      ∃ e, WithHistogramMode m c = Except.error e) ∧
    (∀ (c : translatorConfig) (m : String), m ≠ NumberModeCumulativeToDelta →
      m ≠ NumberModeRawValue → ∃ e, WithNumberMode m c = Except.error e) ∧
    (∀ (pre post : List OptionSpec) (T : Int), T ≤ 0 →
      ∃ e, NewTranslator (pre ++ OptionSpec.deltaTTL T :: post) = Except.error e) ∧
    (∀ (pre post : List OptionSpec) (m : String), m ≠ HistogramModeNoBuckets →
      m ≠ HistogramModeCounters → m ≠ HistogramModeDistributions →
      ∃ e, NewTranslator (pre ++ OptionSpec.histogramMode m :: post) = Except.error e) ∧
    (∀ (pre post : List OptionSpec) (m : String), m ≠ NumberModeCumulativeToDelta →
      m ≠ NumberModeRawValue →
      ∃ e, NewTranslator (pre ++ OptionSpec.numberMode m :: post) = Except.error e) := by
  have httl : ∀ (c : translatorConfig) (T : Int), T ≤ 0 →
      ∃ e, WithDeltaTTL T c = Except.error e := by
    intro c T hT
    exact ⟨"time to live must be positive: " ++ toString T, by simp [WithDeltaTTL, if_pos hT]⟩
  have hhist : ∀ (c : translatorConfig) (m : String), m ≠ HistogramModeNoBuckets →
      m ≠ HistogramModeCounters → m ≠ HistogramModeDistributions →
      ∃ e, WithHistogramMode m c = Except.error e := by
    intro c m h1 h2 h3
    exact ⟨"unknown histogram mode: " ++ m, by simp [WithHistogramMode, h1, h2, h3]⟩
  have hnum : ∀ (c : translatorConfig) (m : String), m ≠ NumberModeCumulativeToDelta →
      m ≠ NumberModeRawValue → ∃ e, WithNumberMode m c = Except.error e := by
    intro c m h1 h2
    exact ⟨"unknown number mode: " ++ m, by simp [WithNumberMode, h1, h2]⟩
  refine ⟨httl, hhist, hnum, ?_, ?_, ?_⟩
  · intro pre post T hT
    exact applyOptions_fail_of_mem pre post _ defaultCfg (fun c2 => httl c2 T hT)
  · intro pre post m h1 h2 h3
    exact applyOptions_fail_of_mem pre post _ defaultCfg (fun c2 => hhist c2 m h1 h2 h3)
  · intro pre post m h1 h2
    exact applyOptions_fail_of_mem pre post _ defaultCfg (fun c2 => hnum c2 m h1 h2)

/-- Witness for C4: the option functions err at TTL `0` and mode `"bogus"`,
and translator construction fails on concrete lists containing them. -/
theorem invalid_options_fail_construction_witness :
    (∃ e, WithDeltaTTL 0 defaultCfg = Except.error e) ∧
    (∃ e, WithHistogramMode "bogus" defaultCfg = Except.error e) ∧
    (∃ e, WithNumberMode "bogus" defaultCfg = Except.error e) ∧
    (∃ e, NewTranslator [OptionSpec.deltaTTL 0] = Except.error e) ∧
    (∃ e, NewTranslator [OptionSpec.quantiles, OptionSpec.histogramMode "bogus"] =
      Except.error e) ∧
    (∃ e, NewTranslator [OptionSpec.numberMode "bogus", OptionSpec.quantiles] =
      Except.error e) :=
  ⟨invalid_options_fail_construction.1 defaultCfg 0 (by decide),
   invalid_options_fail_construction.2.1 defaultCfg "bogus"
     (by decide) (by decide) (by decide),
   invalid_options_fail_construction.2.2.1 defaultCfg "bogus" (by decide) (by decide),
   invalid_options_fail_construction.2.2.2.1 [] [] 0 (by decide),
   invalid_options_fail_construction.2.2.2.2.1 [OptionSpec.quantiles] [] "bogus"
     (by decide) (by decide) (by decide),
   invalid_options_fail_construction.2.2.2.2.2 [] [OptionSpec.quantiles] "bogus"
     (by decide) (by decide)⟩

/-- C5: `WithNumberMode "cumulative_to_delta"` sets `SendMonotonic` and
`WithNumberMode "raw_value"` clears it, erring in neither case and changing no
other field. -/
theorem withNumberMode_sendMonotonic (c : translatorConfig) :
    WithNumberMode NumberModeCumulativeToDelta c = Except.ok { c with SendMonotonic := true } ∧
    WithNumberMode NumberModeRawValue c = Except.ok { c with SendMonotonic := false } := by
  constructor
  · simp [WithNumberMode]
  · simp [WithNumberMode, NumberModeRawValue, NumberModeCumulativeToDelta]

/-- C10: the deprecated `WithCountSumMetrics` is the same option function as
`WithHistogramAggregations`: both set `SendHistogramAggregations`, change no
other field and never err. -/
theorem withCountSumMetrics_eq_withHistogramAggregations :
    WithCountSumMetrics = WithHistogramAggregations ∧
    ∀ c : translatorConfig,
      WithCountSumMetrics c = Except.ok { c with SendHistogramAggregations := true } := by
  exact ⟨rfl, fun c => rfl⟩

/-- C1: on a fresh series identity the first observation yields no delta; a
second observation at a strictly later timestamp with `v0 ≤ v1` yields delta
`v1 - v0`; a third observation with a value below the stored one is a counter
reset: its delta is the new value itself and the stored state becomes the new
value and timestamp (with `lastAccess` refreshed). -/
theorem deltaCache_baseline_delta_reset (c : DeltaCache) (key : String)
    (now0 now1 now2 ts0 ts1 ts2 : Nat) (v0 v1 v2 : Rat)
    (habsent : alistLookup key c.entries = none)
    (h01 : ts0 < ts1) (h12 : ts1 < ts2) (hv : v0 ≤ v1) (hreset : v2 < v1) :
    (c.Compute now0 key ts0 v0).1 = (0, false) ∧
    ((c.Compute now0 key ts0 v0).2.Compute now1 key ts1 v1).1 = (v1 - v0, true) ∧
    (((c.Compute now0 key ts0 v0).2.Compute now1 key ts1 v1).2.Compute
      now2 key ts2 v2).1 = (v2, true) ∧
    alistLookup key (((c.Compute now0 key ts0 v0).2.Compute now1 key ts1 v1).2.Compute
      now2 key ts2 v2).2.entries = some ⟨v2, ts2, now2⟩ := by
  have h1 : c.Compute now0 key ts0 v0 =
      ((0, false), ⟨alistInsert key ⟨v0, ts0, now0⟩ c.entries⟩) := by
    simp [DeltaCache.Compute, habsent]
  have hl1 : alistLookup key (alistInsert key (⟨v0, ts0, now0⟩ : DeltaState) c.entries) =
      some ⟨v0, ts0, now0⟩ := alistLookup_alistInsert _ _ _
  have h2 : (c.Compute now0 key ts0 v0).2.Compute now1 key ts1 v1 =
      ((v1 - v0, true),
        ⟨alistInsert key ⟨v1, ts1, now1⟩ (alistInsert key ⟨v0, ts0, now0⟩ c.entries)⟩) := by
    rw [h1]
    simp only [DeltaCache.Compute, hl1]
    rw [if_neg (by omega), if_neg (not_lt.mpr hv)]
  have hl2 : alistLookup key
      (alistInsert key (⟨v1, ts1, now1⟩ : DeltaState)
        (alistInsert key (⟨v0, ts0, now0⟩ : DeltaState) c.entries)) =
      some ⟨v1, ts1, now1⟩ := alistLookup_alistInsert _ _ _
  have h3 : ((c.Compute now0 key ts0 v0).2.Compute now1 key ts1 v1).2.Compute
      now2 key ts2 v2 =
      ((v2, true),
        ⟨alistInsert key ⟨v2, ts2, now2⟩
          (alistInsert key ⟨v1, ts1, now1⟩
            (alistInsert key ⟨v0, ts0, now0⟩ c.entries))⟩) := by
    rw [h2]
    simp only [DeltaCache.Compute, hl2]
    rw [if_neg (by omega), if_pos hreset]
  refine ⟨by rw [h1], by rw [h2], by rw [h3], ?_⟩
  rw [h3]
  exact alistLookup_alistInsert _ _ _

/-- Witness for C1: an empty cache observing values `5`, `8`, `3` at
timestamps `10 < 20 < 30`. -/
theorem deltaCache_baseline_delta_reset_witness :
    ((⟨[]⟩ : DeltaCache).Compute 100 "series" 10 5).1 = (0, false) ∧
    (((⟨[]⟩ : DeltaCache).Compute 100 "series" 10 5).2.Compute 200 "series" 20 8).1 =
      ((8 : Rat) - 5, true) ∧
    ((((⟨[]⟩ : DeltaCache).Compute 100 "series" 10 5).2.Compute 200 "series" 20 8).2.Compute
      300 "series" 30 3).1 = (3, true) ∧
    alistLookup "series"
      ((((⟨[]⟩ : DeltaCache).Compute 100 "series" 10 5).2.Compute 200 "series" 20 8).2.Compute
        300 "series" 30 3).2.entries = some ⟨3, 30, 300⟩ :=
  deltaCache_baseline_delta_reset ⟨[]⟩ "series" 100 200 300 10 20 30 5 8 3
    (by rfl) (by decide) (by decide) (by norm_num) (by norm_num)

/-- C2: on an identity with an existing state, an observation whose timestamp
is not strictly greater than the stored one yields no delta and leaves the
cache — in particular the stored value and timestamp — unchanged. -/
theorem deltaCache_stale_no_mutation (c : DeltaCache) (key : String)
    (st : DeltaState) (now ts : Nat) (v : Rat)
    (hfound : alistLookup key c.entries = some st)
    (hstale : ts ≤ st.lastTimestamp) :
    c.Compute now key ts v = ((0, false), c) := by
  simp [DeltaCache.Compute, hfound, hstale]

/-- Witness for C2: a duplicate timestamp on a one-entry cache. -/
theorem deltaCache_stale_no_mutation_witness :
    DeltaCache.Compute ⟨[("series", ⟨10, 50, 7⟩)]⟩ 99 "series" 50 12 =
      ((0, false), ⟨[("series", ⟨10, 50, 7⟩)]⟩) :=
  deltaCache_stale_no_mutation ⟨[("series", ⟨10, 50, 7⟩)]⟩ "series" ⟨10, 50, 7⟩
    99 50 12 (by rfl) (by decide)

/-- C8: on an empty attribute set `TagsFromAttributes` returns an empty
sequence that is a real (non-nil) slice. -/
theorem tagsFromAttributes_empty : TagsFromAttributes [] = some [] := by
  rfl

/-- C6: `OriginIDFromAttributes` precedence — a present container ID yields
the `container_id://` form whether or not a pod UID is present; absent a
container ID, a present pod UID yields the `kubernetes_pod_uid://` form; with
neither, the empty string. -/
theorem originID_precedence :
    (∀ (attrs : List (String × String)) (cid : String),
      alistLookup "container.id" attrs = some cid →
      OriginIDFromAttributes attrs = "container_id://" ++ cid) ∧
    (∀ (attrs : List (String × String)) (uid : String),
      alistLookup "container.id" attrs = none →
      alistLookup "k8s.pod.uid" attrs = some uid →
      OriginIDFromAttributes attrs = "kubernetes_pod_uid://" ++ uid) ∧
    (∀ attrs : List (String × String),
      alistLookup "container.id" attrs = none →
      alistLookup "k8s.pod.uid" attrs = none →
      OriginIDFromAttributes attrs = "") := by
  refine ⟨?_, ?_, ?_⟩
  · intro attrs cid h
    simp [OriginIDFromAttributes, h]
  · intro attrs uid h1 h2
    simp [OriginIDFromAttributes, h1, h2]
  · intro attrs h1 h2
    simp [OriginIDFromAttributes, h1, h2]

/-- Witness for C6: the three attribute sets of `TestOriginIDFromAttributes`
(both IDs, only a pod UID, neither). -/
theorem originID_precedence_witness :
    OriginIDFromAttributes
      [("container.id", "container_id_goes_here"), ("k8s.pod.uid", "k8s_pod_uid_goes_here")] =
      "container_id://" ++ "container_id_goes_here" ∧
    OriginIDFromAttributes [("k8s.pod.uid", "k8s_pod_uid_goes_here")] =
      "kubernetes_pod_uid://" ++ "k8s_pod_uid_goes_here" ∧
    OriginIDFromAttributes [] = "" :=
  ⟨originID_precedence.1
      [("container.id", "container_id_goes_here"), ("k8s.pod.uid", "k8s_pod_uid_goes_here")]
      "container_id_goes_here" (by rfl),
   originID_precedence.2.1 [("k8s.pod.uid", "k8s_pod_uid_goes_here")]
      "k8s_pod_uid_goes_here" (by rfl) (by rfl),
   originID_precedence.2.2 [] (by rfl) (by rfl)⟩

/-- C9: `ContainerTagFromAttributes` drops an empty-string key wherever it
stands, drops every key outside the allow-list, and keeps an allow-listed key
whose value is the empty string: the mapped entry appears in the result with
the empty-string value. -/
theorem containerTag_allowlist :
    (∀ (pre post : List (String × String)) (v : String),
      ContainerTagFromAttributes (pre ++ ("", v) :: post) =
        ContainerTagFromAttributes (pre ++ post)) ∧
    (∀ (pre post : List (String × String)) (k v : String),
      alistLookup k containerTagsAttributes = none →
      ContainerTagFromAttributes (pre ++ (k, v) :: post) =
        ContainerTagFromAttributes (pre ++ post)) ∧
    (∀ (pre post : List (String × String)) (k dk : String),
      alistLookup k containerTagsAttributes = some dk →
      (dk, "") ∈ ContainerTagFromAttributes (pre ++ (k, "") :: post)) := by
  have hdrop : ∀ (pre post : List (String × String)) (k v : String),
      alistLookup k containerTagsAttributes = none →
      ContainerTagFromAttributes (pre ++ (k, v) :: post) =
        ContainerTagFromAttributes (pre ++ post) := by
    intro pre post k v h
    simp [ContainerTagFromAttributes, List.filterMap_append, List.filterMap_cons, h]
  refine ⟨fun pre post v => hdrop pre post "" v (by rfl), hdrop, ?_⟩
  intro pre post k dk h
  simp [ContainerTagFromAttributes, List.filterMap_append, List.filterMap_cons, h]

/-- Witness for C9: the non-allow-listed key `custom_tag` is dropped between
two allow-listed entries, and `container.name` with an empty value is kept as
`container_name:""`. -/
theorem containerTag_allowlist_witness :
    ContainerTagFromAttributes
      [("container.name", "sample_app"), ("custom_tag", "example_custom_tag"),
       ("cloud.region", "sample_region")] =
      ContainerTagFromAttributes
        [("container.name", "sample_app"), ("cloud.region", "sample_region")] ∧
    ("container_name", "") ∈
      ContainerTagFromAttributes [("container.name", ""), ("cloud.region", "r")] :=
  ⟨containerTag_allowlist.2.1 [("container.name", "sample_app")]
      [("cloud.region", "sample_region")] "custom_tag" "example_custom_tag" (by rfl),
   containerTag_allowlist.2.2 [] [("cloud.region", "r")] "container.name"
      "container_name" (by rfl)⟩

/-- C7: on the fixed mixed batch — exactly one unrecognized-type metric and
two sums of unsupported temporality — `MapMetrics` records exactly 1 "unknown
metric type" and exactly 2 "unsupported aggregation temporality" diagnostics,
under every configuration (hence under every combination of the boolean
tag/aggregation options); in particular any two runs agree on both counts. -/
theorem mapMetrics_diag_counts_invariant :
    (∀ (cfg : translatorConfig) (cache : DeltaCache) (now : Nat),
      (MapMetrics cfg cache now mixedBatch).2.1 = ⟨1, 2⟩) ∧
    (∀ (cfg1 cfg2 : translatorConfig) (cache1 cache2 : DeltaCache) (now1 now2 : Nat),
      (MapMetrics cfg1 cache1 now1 mixedBatch).2.1 =
        (MapMetrics cfg2 cache2 now2 mixedBatch).2.1) := by
  have hfix : ∀ (cfg : translatorConfig) (cache : DeltaCache) (now : Nat),
      (MapMetrics cfg cache now mixedBatch).2.1 = ⟨1, 2⟩ := by
    intro cfg cache now
    rw [mapMetrics_diag_eq_fold]
    rfl
  exact ⟨hfix, fun cfg1 cfg2 cache1 cache2 now1 now2 => by
    rw [hfix cfg1 cache1 now1, hfix cfg2 cache2 now2]⟩

end OtelMapping
